import Mathlib

/-!
Verification of the authentication and request-authorization boundary of the
cozyadmin repository: the credential hasher (src/app/api/seed route and
lib/cryptoUtils), the token service (src/lib/authUtils.ts), the request gate
(src/middleware.ts) and the client session controller
(src/context/AuthContext.tsx), shallowly embedded in Lean.

JavaScript string primitives used by the source (String.prototype.startsWith,
String.prototype.includes with a single-character needle, String.prototype.split
with a single-character separator) are modelled over the character list of a
Lean String with the same semantics.
-/

/-- The space character, written by codepoint. -/
def spaceChar : Char := Char.ofNat 32

/-- JS s.startsWith(pre). -/
def jsStartsWith (s pre : String) : Bool := pre.data.isPrefixOf s.data

/-- JS s.includes(c) for a single-character needle c. -/
def jsIncludesChar (s : String) (c : Char) : Bool := s.data.contains c

/-- Worker for JS String.prototype.split with a one-character separator:
splits at every occurrence, keeping empty pieces; an input with no separator
yields a single piece. -/
def splitAux (sep : Char) : List Char → List Char → List (List Char)
  | [], acc => [acc.reverse]
  | c :: cs, acc =>
    if c = sep then acc.reverse :: splitAux sep cs []
    else splitAux sep cs (c :: acc)

/-- JS s.split(sep) for a one-character separator. -/
def jsSplit (s : String) (sep : Char) : List String :=
  (splitAux sep s.data []).map String.mk

/-- Decimal digit value of a character, if any. -/
def digitVal? (c : Char) : Option Nat :=
  if c.toNat ≥ 48 ∧ c.toNat ≤ 57 then some (c.toNat - 48) else none

def parseNatAux : List Char → Nat → Option Nat
  | [], acc => some acc
  | c :: cs, acc =>
    match digitVal? c with
    | some d => parseNatAux cs (acc * 10 + d)
    | none => none

/-- Parse a nonempty all-digit string as a Nat (model of String.toNat?). -/
def parseNat? (s : String) : Option Nat :=
  match s.data with
  | [] => none
  | _ => parseNatAux s.data 0

/-! ## Token service (src/lib/authUtils.ts)

Token claims carried by the JWT, per the DecodedToken interface of
src/lib/authUtils.ts: userId, username, role, iat, exp. -/

structure JwtPayload where
  userId : String
  username : String
  role : String
  iat : Nat
  exp : Nat
deriving DecidableEq, Repr

/-- A compact JWT is either structurally malformed, or a well-formed
payload-plus-signature pair. -/
inductive Token where
  | malformed (raw : String) : Token
  | wellFormed (payload : JwtPayload) (sig : Nat) : Token
deriving DecidableEq, Repr

/-- Keyed rolling hash over a string, reduced mod a prime to keep values small.
Building block of the HMAC stand-in below. -/
def strCode (s : String) : Nat :=
  s.data.foldl (fun a c => (a * 131 + c.toNat + 1) % 1000000007) 7

/-- Stand-in for the HMAC-SHA-256 signature over the payload under the
server-wide secret. It is a concrete deterministic function of
(secret, payload); no proof in this file relies on collision resistance,
only on determinism. -/
def hmacSha256 (secret : String) (p : JwtPayload) : Nat :=
  (strCode secret * 101 + strCode p.userId * 97 + strCode p.username * 89 +
   strCode p.role * 83 + p.iat * 79 + p.exp * 73) % 1000000007

/-- Internal failure modes of JWT verification, distinguished by the library
(and by the console.error log in verifyToken) but not by its caller. -/
inductive JwtError where
  | malformed : JwtError
  | invalidSignature : JwtError
  | expired : JwtError
deriving DecidableEq, Repr

/-- Model of jwt.verify(token, JWT_SECRET, cb) from the jsonwebtoken library as
used by src/lib/authUtils.ts: reject malformed tokens, then check the
signature, then reject when the current time is at or past exp (the token is
valid strictly before exp). -/
def jwtVerifyModel (secret : String) (now : Nat) : Token → Except JwtError JwtPayload
  | .malformed _ => .error .malformed
  | .wellFormed p sig =>
    if sig = hmacSha256 secret p then
      if now < p.exp then .ok p else .error .expired
    else .error .invalidSignature

/-- verifyToken from src/lib/authUtils.ts: on any library error it logs the
specific message internally and rejects with the single generic
Error('Invalid or expired token'); on success it resolves the decoded
payload. -/
def verifyToken (secret : String) (now : Nat) (t : Token) : Except String JwtPayload :=
  match jwtVerifyModel secret now t with
  | .error _ => .error "Invalid or expired token"
  | .ok d => .ok d

/-- The token's signature verifies under the given secret. A malformed token
carries no verifiable signature. -/
def sigVerifies (secret : String) : Token → Bool
  | .malformed _ => false
  | .wellFormed p sig => sig = hmacSha256 secret p

/-- The current time is strictly before the token's exp claim. A malformed
token has no exp claim. -/
def beforeExpiry (now : Nat) : Token → Bool
  | .malformed _ => false
  | .wellFormed p _ => now < p.exp

def exceptOk {ε α : Type} : Except ε α → Bool
  | .ok _ => true
  | .error _ => false

/-! Compact string serialization of the token model, standing in for the JWT
wire format: the five claims and the signature joined by a separator. It lets
the request gate, which receives the token as a substring of the
Authorization header, hand a string to the token service. -/

def sepChar : Char := Char.ofNat 124

def encodeToken : Token → String
  | .malformed raw => raw
  | .wellFormed p sig =>
    p.userId ++ "|" ++ p.username ++ "|" ++ p.role ++ "|" ++ Nat.repr p.iat ++
    "|" ++ Nat.repr p.exp ++ "|" ++ Nat.repr sig

def decodeToken (s : String) : Token :=
  match jsSplit s sepChar with
  | [u, n, r, i, e, g] =>
    match parseNat? i, parseNat? e, parseNat? g with
    | some iat, some exp, some sig => .wellFormed ⟨u, n, r, iat, exp⟩ sig
    | _, _, _ => .malformed s
  | _ => .malformed s

/-- String-level verifyToken: decode the wire form, then verify. -/
def verifyTokenStr (secret : String) (now : Nat) (s : String) : Except String JwtPayload :=
  verifyToken secret now (decodeToken s)

/-! ## Signing-secret configuration (src/lib/authUtils.ts line 3)

const JWT_SECRET = process.env.JWT_SECRET || 'fallback-secret-key-replace-in-production' -/

def FALLBACK_SECRET : String := "fallback-secret-key-replace-in-production"

/-- The secret the process actually uses, as a function of the environment
variable: a missing or empty (JS-falsy) value silently selects the hardcoded
fallback. -/
def jwtSecretFromEnv (env : Option String) : String :=
  match env with
  | none => FALLBACK_SECRET
  | some s => if s = "" then FALLBACK_SECRET else s

/-! ## Request gate (src/middleware.ts) -/

def protectedApiPaths : List String := ["/api/products", "/api/orders"]

def publicPaths : List String := ["/login", "/api/auth/login"]

/-- Outcome of the middleware: pass the request through, pass it through with
the decoded identity attached as the X-User-Info request header, or reject
with an HTTP status and JSON message. -/
inductive GateResult where
  | next : GateResult
  | nextWith (userInfo : JwtPayload) : GateResult
  | reject (status : Nat) (message : String) : GateResult
deriving DecidableEq, Repr

def gateStatus : GateResult → Option Nat
  | .reject s _ => some s
  | _ => none

/-- const isProtectedApi = protectedApiPaths.some(path => pathname.startsWith(path)) -/
def isProtectedApi (pathname : String) : Bool :=
  protectedApiPaths.any (fun path => jsStartsWith pathname path)

/-- const isProtectedPage = !publicPaths.includes(pathname) && !isProtectedApi
&& !pathname.startsWith('/api/') — computed by the source but not used for any
decision (the page-protection block is commented out). -/
def isProtectedPage (pathname : String) : Bool :=
  !publicPaths.contains pathname && !isProtectedApi pathname &&
    !jsStartsWith pathname "/api/"

/-- const token = authHeader?.split(' ')[1] -/
def extractToken (authHeader : Option String) : Option String :=
  authHeader.bind fun h => (jsSplit h spaceChar)[1]?

/-- The protected-API branch of the middleware. A missing or empty (JS-falsy)
token yields 401 'Authentication required'. Then verifyToken runs inside
try/catch; a verification failure, and equally a decoded payload whose role is
not 'admin' (the branch throws, and the throw lands in the same catch), yield
401 'Invalid or expired token'. On success the request proceeds with the
decoded identity attached. -/
def apiGate (vf : String → Except String JwtPayload) (authHeader : Option String) : GateResult :=
  match extractToken authHeader with
  | none => .reject 401 "Authentication required"
  | some t =>
    if t = "" then .reject 401 "Authentication required"
    else
      match vf t with
      | .error _ => .reject 401 "Invalid or expired token"
      | .ok decoded =>
        if decoded.role = "admin" then .nextWith decoded
        else .reject 401 "Invalid or expired token"

/-- middleware(req) from src/middleware.ts, parameterized by the imported
verifyToken (vf) and applied to the request's pathname and Authorization
header. First the static-asset / framework-internal / public-allow-list check
(startsWith '/_next/', includes '.', publicPaths membership) passes the
request through; then a protected-API path goes through the token check; any
other path passes through (the page branch is advisory and commented out). -/
def middleware (vf : String → Except String JwtPayload) (pathname : String)
    (authHeader : Option String) : GateResult :=
  if jsStartsWith pathname "/_next/" || jsIncludesChar pathname '.' ||
      publicPaths.contains pathname then
    GateResult.next
  else if isProtectedApi pathname then
    apiGate vf authHeader
  else
    GateResult.next

/-! ## Credential hasher (src/lib/cryptoUtils.ts, seeded from src/app/api/seed/route.ts) -/

def ITERATIONS : Nat := 100000

def KEY_LENGTH : Nat := 64

/-- Stand-in for crypto.pbkdf2(password, salt, iterations, keyLen, 'sha512'):
a concrete deterministic function of its arguments producing keyLen bytes.
No proof relies on its preimage resistance, only on determinism and output
length. The salt argument is the salt string exactly as the source passes it
(the source never hex-decodes the salt). -/
def pbkdf2 (password salt : String) (iterations keyLen : Nat) : List Nat :=
  (List.range keyLen).map
    (fun i => (strCode password * 37 + strCode salt * 41 + iterations * 43 + i * 47) % 256)

def hexChar (n : Nat) : Char :=
  match n with
  | 0 => '0' | 1 => '1' | 2 => '2' | 3 => '3' | 4 => '4'
  | 5 => '5' | 6 => '6' | 7 => '7' | 8 => '8' | 9 => '9'
  | 10 => 'a' | 11 => 'b' | 12 => 'c' | 13 => 'd' | 14 => 'e' | 15 => 'f'
  | _ => '0'

def hexDigitVal? (c : Char) : Option Nat :=
  if c.toNat ≥ 48 ∧ c.toNat ≤ 57 then some (c.toNat - 48)
  else if c.toNat ≥ 97 ∧ c.toNat ≤ 102 then some (c.toNat - 87)
  else if c.toNat ≥ 65 ∧ c.toNat ≤ 70 then some (c.toNat - 55)
  else none

/-- Buffer#toString('hex') of one byte. -/
def byteToHex (b : Nat) : List Char := [hexChar (b / 16), hexChar (b % 16)]

/-- Buffer#toString('hex') of a byte list. -/
def bytesToHex (bs : List Nat) : String := String.mk ((bs.map byteToHex).flatten)

/-- Buffer.from(s, 'hex'): decodes hex pairs from the left and stops at the
first invalid pair (or odd trailing character), truncating the rest. -/
def hexDecode : List Char → List Nat
  | c1 :: c2 :: rest =>
    (match hexDigitVal? c1, hexDigitVal? c2 with
     | some h, some l => (16 * h + l) :: hexDecode rest
     | _, _ => [])
  | _ => []

/-- crypto.timingSafeEqual: throws when the buffers differ in length,
otherwise reports byte equality. -/
def timingSafeEqual (a b : List Nat) : Except String Bool :=
  if a.length = b.length then .ok (a == b) else .error "length mismatch"

/-- pbkdf2Hash(password) with the 16 random salt bytes already hex-encoded and
supplied as saltHex (modelling crypto.randomBytes(16).toString('hex')):
returns saltHex ++ ':' ++ hex(derivedKey). -/
def pbkdf2Hash (saltHex : String) (password : String) : String :=
  saltHex ++ ":" ++ bytesToHex (pbkdf2 password saltHex ITERATIONS KEY_LENGTH)

/-- pbkdf2Verify(storedHash, providedPassword): split on ':'; a missing or
empty (JS-falsy) half resolves false; otherwise re-derive the key from the
candidate password and the extracted salt and compare
Buffer.from(derivedKeyHex,'hex') with Buffer.from(originalKeyHex,'hex') by
timingSafeEqual, resolving false when the comparison throws on a length
mismatch. Total with codomain Bool: every malformed input resolves, none
throws. -/
def pbkdf2Verify (storedHash password : String) : Bool :=
  let parts := jsSplit storedHash ':'
  let salt := (parts[0]?).getD ""
  let originalKeyHex := (parts[1]?).getD ""
  if salt = "" || originalKeyHex = "" then false
  else
    match timingSafeEqual
        (hexDecode (bytesToHex (pbkdf2 password salt ITERATIONS KEY_LENGTH)).data)
        (hexDecode originalKeyHex.data) with
    | .ok b => b
    | .error _ => false

/-! ## Session controller (src/context/AuthContext.tsx) -/

inductive StorageOp where
  | setItem (key value : String) : StorageOp
  | removeItem (key : String) : StorageOp
deriving DecidableEq, Repr

structure SetTokenResult where
  newTokenState : Option String
  storageOps : List StorageOp
  pushes : List String
deriving DecidableEq, Repr

/-- setToken from AuthContext.tsx. It reads only the argument and the current
route: a non-null token is persisted with localStorage.setItem and, from the
login route, triggers a push to /dashboard; a null token is erased with
localStorage.removeItem and, away from the login route, triggers a push to
/login. (setIsLoading(true) followed by setIsLoading(false) leaves the loading
flag false.) -/
def setToken (pathname : String) (newToken : Option String) : SetTokenResult :=
  match newToken with
  | some t =>
    { newTokenState := some t
      storageOps := [.setItem "adminToken" t]
      pushes := if pathname = "/login" then ["/dashboard"] else [] }
  | none =>
    { newTokenState := none
      storageOps := [.removeItem "adminToken"]
      pushes := if pathname = "/login" then [] else ["/login"] }

/-- A sequence of setToken calls on a fixed route, in call order. -/
def runCalls (pathname : String) : List (Option String) → List SetTokenResult
  | [] => []
  | t :: ts => setToken pathname t :: runCalls pathname ts

inductive Phase where
  | uninit : Phase
  | loaded : Phase
deriving DecidableEq, Repr

structure CtrlState where
  phase : Phase
  token : Option String
  pathname : String
deriving DecidableEq, Repr

/-- The navigation effect of AuthContext.tsx: guarded by !isLoading (no
decision before the startup read), then: no token and a non-public route
pushes /login; a token on the login route pushes /dashboard. -/
def navDecision (s : CtrlState) : Option String :=
  match s.phase with
  | .uninit => none
  | .loaded =>
    if s.token = none ∧ ¬ s.pathname ∈ (["/login"] : List String) then some "/login"
    else if s.token ≠ none ∧ s.pathname = "/login" then some "/dashboard"
    else none

inductive CtrlEv where
  | initRead (stored : Option String) : CtrlEv
  | route (p : String) : CtrlEv
  | set (t : Option String) : CtrlEv

/-- One step of the session controller, returning the successor state and the
navigation pushes the step emits; none when the event cannot fire. initRead is
the one-time mount effect reading the persisted token; route is a route
change, which re-runs the guarded navigation effect; set is a setToken call —
user-driven, hence (React dispatches user events only after the mount effect
has run) only enabled once loaded. -/
def ctrlStep (s : CtrlState) : CtrlEv → Option (CtrlState × List String)
  | .initRead stored =>
    match s.phase with
    | .uninit =>
      let s' : CtrlState := ⟨.loaded, stored, s.pathname⟩
      some (s', (navDecision s').toList)
    | .loaded => none
  | .route p =>
    let s' : CtrlState := { s with pathname := p }
    some (s', (navDecision s').toList)
  | .set t =>
    match s.phase with
    | .uninit => none
    | .loaded =>
      let r := setToken s.pathname t
      let s' : CtrlState := ⟨.loaded, t, s.pathname⟩
      some (s', r.pushes ++ (navDecision s').toList)

/-- Reachable controller states: mount starts Uninitialized with no in-memory
token on an arbitrary route (useState(null), useState(true)), and evolves by
steps. -/
inductive Reach : CtrlState → Prop
  | start (p : String) : Reach ⟨.uninit, none, p⟩
  | step {s : CtrlState} {e : CtrlEv} {s' : CtrlState} {navs : List String} :
      Reach s → ctrlStep s e = some (s', navs) → Reach s'

/-! ## Concrete scenario instances used by counterexamples and witnesses -/

/-- A concrete server secret for the scenarios below. -/
def SERVER_SECRET : String := "server-secret"

/-- A payload whose signature and expiry verify but whose role is customer. -/
def custPayload : JwtPayload := ⟨"u17", "carol", "customer", 100, 9999⟩

/-- The customer token in wire form, signed under SERVER_SECRET. -/
def custToken : String :=
  encodeToken (Token.wellFormed custPayload (hmacSha256 SERVER_SECRET custPayload))

/-- An admin payload and its signed wire-form token. -/
def adminPayload : JwtPayload := ⟨"u1", "admin", "admin", 50, 9999⟩

def adminToken : String :=
  encodeToken (Token.wellFormed adminPayload (hmacSha256 SERVER_SECRET adminPayload))

/-- The payload the seed route provisions (role admin). -/
def seedPayload : JwtPayload := ⟨"u1", "admin", "admin", 0, 3600⟩

/-- A verifier stub that rejects every token (the gate below never reaches it
on the dotted-path scenarios). -/
def vfReject : String → Except String JwtPayload :=
  fun _ => Except.error "Invalid or expired token"

/-! ## Library lemmas about the JS string primitives -/

theorem splitAux_no_sep (sep : Char) :
    ∀ (w acc : List Char), sep ∉ w → splitAux sep w acc = [acc.reverse ++ w]
  | [], acc, _ => by simp [splitAux]
  | c :: cs, acc, h => by
    have hc : ¬ c = sep := fun e => h (e ▸ List.mem_cons_self c cs)
    have ht : sep ∉ cs := fun m => h (List.mem_cons_of_mem _ m)
    simp only [splitAux, if_neg hc]
    rw [splitAux_no_sep sep cs (c :: acc) ht]
    simp

theorem splitAux_break (sep : Char) :
    ∀ (w rest acc : List Char), sep ∉ w →
      splitAux sep (w ++ sep :: rest) acc = (acc.reverse ++ w) :: splitAux sep rest []
  | [], rest, acc, _ => by simp [splitAux]
  | c :: cs, rest, acc, h => by
    have hc : ¬ c = sep := fun e => h (e ▸ List.mem_cons_self c cs)
    have ht : sep ∉ cs := fun m => h (List.mem_cons_of_mem _ m)
    simp only [List.cons_append, splitAux, if_neg hc, List.append_eq]
    rw [splitAux_break sep cs rest (c :: acc) ht]
    simp

/-- Splitting w ++ sep ++ t where neither part contains the separator yields
exactly the two parts (the JS split-and-destructure idiom). -/
theorem jsSplit_sep_pair (sep : Char) (w t : String)
    (hw : sep ∉ w.data) (ht : sep ∉ t.data) :
    jsSplit (w ++ String.mk [sep] ++ t) sep = [w, t] := by
  unfold jsSplit
  have hdata : (w ++ String.mk [sep] ++ t).data = w.data ++ sep :: t.data := by
    simp [String.data_append]
  rw [hdata, splitAux_break sep w.data t.data [] hw, splitAux_no_sep sep t.data [] ht]
  simp

/-- Splitting a separator-free string yields the one-element list (so index 1
is out of range, the JS undefined). -/
theorem jsSplit_single (sep : Char) (w : String) (hw : sep ∉ w.data) :
    jsSplit w sep = [w] := by
  unfold jsSplit
  rw [splitAux_no_sep sep w.data [] hw]
  simp

theorem startsWith_eq_true_iff {s pre : String} :
    jsStartsWith s pre = true ↔ pre.data <+: s.data := by
  unfold jsStartsWith
  exact List.isPrefixOf_iff_prefix

/-! ## Path-classification lemmas for the request gate -/

theorem protApi_cases {p : String} (hp : isProtectedApi p = true) :
    jsStartsWith p "/api/products" = true ∨ jsStartsWith p "/api/orders" = true := by
  simp only [isProtectedApi, protectedApiPaths, List.any_cons, List.any_nil,
    Bool.or_false, Bool.or_eq_true] at hp
  exact hp

theorem protApi_slash_a {p : String} (hp : isProtectedApi p = true) :
    ['/', 'a'] <+: p.data := by
  rcases protApi_cases hp with h | h
  · exact List.IsPrefix.trans (⟨"pi/products".data, by decide⟩ : ['/', 'a'] <+: "/api/products".data)
      (startsWith_eq_true_iff.mp h)
  · exact List.IsPrefix.trans (⟨"pi/orders".data, by decide⟩ : ['/', 'a'] <+: "/api/orders".data)
      (startsWith_eq_true_iff.mp h)

/-- A protected-API path cannot also carry the framework-internal prefix. -/
theorem protApi_not_next {p : String} (hp : isProtectedApi p = true) :
    jsStartsWith p "/_next/" = false := by
  by_contra hne
  have h2 : ['/', '_'] <+: p.data :=
    List.IsPrefix.trans (⟨"next/".data, by decide⟩ : ['/', '_'] <+: "/_next/".data)
      (startsWith_eq_true_iff.mp (by revert hne; cases jsStartsWith p "/_next/" <;> simp))
  obtain ⟨t1, e1⟩ := protApi_slash_a hp
  obtain ⟨t2, e2⟩ := h2
  rw [← e1] at e2
  injection e2 with e3 e4
  injection e4 with e5 e6
  exact absurd e5 (by decide)

/-- A protected-API path is not in the public allow-list. -/
theorem protApi_not_public {p : String} (hp : isProtectedApi p = true) :
    publicPaths.contains p = false := by
  by_contra hne
  have hc : publicPaths.contains p = true := by
    revert hne; cases publicPaths.contains p <;> simp
  have hmem : p ∈ publicPaths := by
    simpa [List.contains, List.elem_eq_mem] using hc
  rcases protApi_cases hp with h | h <;>
    simp only [publicPaths, List.mem_cons, List.mem_singleton, List.not_mem_nil] at hmem <;>
    rcases hmem with rfl | rfl | hF <;> first
      | exact absurd h (by decide)
      | exact hF.elim

/-- On a dot-free protected-API path, the middleware runs the token check. -/
theorem middleware_protected (vf : String → Except String JwtPayload) {p : String}
    (hdr : Option String) (hp : isProtectedApi p = true)
    (hd : jsIncludesChar p '.' = false) :
    middleware vf p hdr = apiGate vf hdr := by
  unfold middleware
  rw [protApi_not_next hp, hd, protApi_not_public hp, hp]
  simp

/-! ## Hex-codec and key-derivation lemmas -/

theorem hexDigitVal_hexChar {h : Nat} (hh : h < 16) : hexDigitVal? (hexChar h) = some h := by
  interval_cases h <;> rfl

theorem hexChar_ne_colon (n : Nat) : hexChar n ≠ ':' := by
  unfold hexChar
  split <;> decide

theorem colon_not_mem_byteToHex (b : Nat) : ':' ∉ byteToHex b := by
  simp only [byteToHex, List.mem_cons, List.not_mem_nil, or_false]
  rintro (h | h) <;> exact hexChar_ne_colon _ h.symm

theorem colon_not_mem_bytesToHex (bs : List Nat) : ':' ∉ (bytesToHex bs).data := by
  show ':' ∉ (bs.map byteToHex).flatten
  simp only [List.mem_flatten, List.mem_map, not_exists, not_and]
  rintro l ⟨b, _, rfl⟩
  exact colon_not_mem_byteToHex b

/-- Decoding the hex encoding of a byte list recovers the bytes. -/
theorem hexDecode_roundtrip : ∀ (bs : List Nat), (∀ b ∈ bs, b < 256) →
    hexDecode ((bs.map byteToHex).flatten) = bs
  | [], _ => rfl
  | b :: bs, h => by
    have hb : b < 256 := h b (List.mem_cons_self b bs)
    have hdiv : b / 16 < 16 := by omega
    have hmod : b % 16 < 16 := Nat.mod_lt _ (by decide)
    simp only [List.map_cons, List.flatten_cons, byteToHex, List.cons_append, List.nil_append]
    show hexDecode (hexChar (b / 16) :: hexChar (b % 16) :: (bs.map byteToHex).flatten) = b :: bs
    rw [hexDecode, hexDigitVal_hexChar hdiv, hexDigitVal_hexChar hmod]
    rw [hexDecode_roundtrip bs (fun x hx => h x (List.mem_cons_of_mem _ hx))]
    simp only []
    show (16 * (b / 16) + b % 16) :: bs = b :: bs
    rw [Nat.div_add_mod]

theorem pbkdf2_lt256 (pw s : String) (it kl : Nat) : ∀ b ∈ pbkdf2 pw s it kl, b < 256 := by
  intro b hb
  simp only [pbkdf2, List.mem_map, List.mem_range] at hb
  obtain ⟨i, _, rfl⟩ := hb
  exact Nat.mod_lt _ (by decide)

theorem pbkdf2_length (pw s : String) (it kl : Nat) : (pbkdf2 pw s it kl).length = kl := by
  simp [pbkdf2]

theorem pbkdf2_ne_nil (pw s : String) : pbkdf2 pw s ITERATIONS KEY_LENGTH ≠ [] := by
  intro h
  have := pbkdf2_length pw s ITERATIONS KEY_LENGTH
  rw [h] at this
  simp [KEY_LENGTH] at this

theorem bytesToHex_ne_empty {bs : List Nat} (h : bs ≠ []) : bytesToHex bs ≠ "" := by
  cases bs with
  | nil => exact absurd rfl h
  | cons b rest =>
    intro he
    have : (bytesToHex (b :: rest)).data = "".data := congrArg String.data he
    simp [bytesToHex, byteToHex] at this

/-! ## Token-extraction lemmas for the Authorization header -/

/-- authHeader?.split(' ')[1] on a two-word header picks the second word,
whatever the first word (scheme) is. -/
theorem extractToken_pair (w t : String) (hw : spaceChar ∉ w.data) (ht : spaceChar ∉ t.data) :
    extractToken (some (w ++ " " ++ t)) = some t := by
  unfold extractToken
  have h : (w ++ " " ++ t) = (w ++ String.mk [spaceChar] ++ t) := rfl
  rw [Option.some_bind, h, jsSplit_sep_pair spaceChar w t hw ht]
  rfl

/-- authHeader?.split(' ')[1] on a one-word header is the JS undefined. -/
theorem extractToken_single (w : String) (hw : spaceChar ∉ w.data) :
    extractToken (some w) = none := by
  unfold extractToken
  rw [Option.some_bind, jsSplit_single spaceChar w hw]
  rfl

/-- C2. verifyToken succeeds exactly when the token's signature verifies under
the server secret and the current time is strictly before its exp claim; no
other condition bears on the outcome (a malformed token is one whose
signature cannot verify). -/
theorem c2_verify_iff (secret : String) (now : Nat) (t : Token) :
    exceptOk (verifyToken secret now t) = true ↔
      (sigVerifies secret t = true ∧ beforeExpiry now t = true) := by
  cases t with
  | malformed raw => simp [verifyToken, jwtVerifyModel, exceptOk, sigVerifies, beforeExpiry]
  | wellFormed p sig =>
    by_cases hs : sig = hmacSha256 secret p
    · by_cases he : now < p.exp
      · simp [verifyToken, jwtVerifyModel, exceptOk, sigVerifies, beforeExpiry, hs, he]
      · simp [verifyToken, jwtVerifyModel, exceptOk, sigVerifies, beforeExpiry, hs, he]
    · simp [verifyToken, jwtVerifyModel, exceptOk, sigVerifies, beforeExpiry, hs]

/-- C3. Whatever the internal failure mode (malformed, bad signature,
expired), verifyToken surfaces the one generic error string to its caller. -/
theorem c3_generic_error (secret : String) (now : Nat) (t : Token) (e : String)
    (h : verifyToken secret now t = Except.error e) : e = "Invalid or expired token" := by
  unfold verifyToken at h
  revert h
  cases jwtVerifyModel secret now t <;> intro h <;> simp_all

/-- Witness for C3 at a concrete structurally malformed token. -/
theorem c3_generic_error_wit :
    verifyToken "some-secret" 0 (Token.malformed "not-a-jwt") =
      Except.error "Invalid or expired token" := by
  have hex : ∃ e, verifyToken "some-secret" 0 (Token.malformed "not-a-jwt") = Except.error e :=
    ⟨_, rfl⟩
  obtain ⟨e, he⟩ := hex
  rw [he, c3_generic_error "some-secret" 0 (Token.malformed "not-a-jwt") e he]

/-- C4 counterexample. With the environment variable missing the process does
not fail: it substitutes the hardcoded fallback secret and verifies, at time
5, a token signed under that fallback. -/
theorem c4_fallback_secret_cex :
    jwtSecretFromEnv none = FALLBACK_SECRET ∧
    verifyToken (jwtSecretFromEnv none) 5
      (Token.wellFormed seedPayload (hmacSha256 FALLBACK_SECRET seedPayload)) =
      Except.ok seedPayload := by
  refine ⟨rfl, ?_⟩
  show verifyToken FALLBACK_SECRET 5
    (Token.wellFormed seedPayload (hmacSha256 FALLBACK_SECRET seedPayload)) =
    Except.ok seedPayload
  simp [verifyToken, jwtVerifyModel, seedPayload]

/-- C4 amended. A missing (or empty, JS-falsy) JWT_SECRET silently selects the
hardcoded fallback secret, and the process proceeds to verify any unexpired
token signed under that fallback; nothing fails at startup. -/
theorem c4_fallback_secret_amended (p : JwtPayload) (now : Nat) (h : now < p.exp) :
    jwtSecretFromEnv none = FALLBACK_SECRET ∧
    jwtSecretFromEnv (some "") = FALLBACK_SECRET ∧
    verifyToken (jwtSecretFromEnv none) now
      (Token.wellFormed p (hmacSha256 FALLBACK_SECRET p)) = Except.ok p := by
  refine ⟨rfl, rfl, ?_⟩
  show verifyToken FALLBACK_SECRET now (Token.wellFormed p (hmacSha256 FALLBACK_SECRET p)) =
    Except.ok p
  simp [verifyToken, jwtVerifyModel, h]

/-- Witness for the amended C4 at the seed payload and time 0. -/
theorem c4_fallback_secret_amended_wit :
    jwtSecretFromEnv none = FALLBACK_SECRET ∧
    jwtSecretFromEnv (some "") = FALLBACK_SECRET ∧
    verifyToken (jwtSecretFromEnv none) 0
      (Token.wellFormed seedPayload (hmacSha256 FALLBACK_SECRET seedPayload)) =
      Except.ok seedPayload :=
  c4_fallback_secret_amended seedPayload 0 (by decide)

set_option maxRecDepth 8192 in
/-- C1 counterexample. A request to /api/products carrying a token whose
signature and expiry verify but whose role is customer is rejected with
status 401 and the same message as any verification failure — not with a
distinct 403 Forbidden. -/
theorem c1_role_not_admin_cex :
    sigVerifies SERVER_SECRET (decodeToken custToken) = true ∧
    beforeExpiry 200 (decodeToken custToken) = true ∧
    verifyTokenStr SERVER_SECRET 200 custToken = Except.ok custPayload ∧
    custPayload.role ≠ "admin" ∧
    middleware (verifyTokenStr SERVER_SECRET 200) "/api/products"
      (some ("Bearer" ++ " " ++ custToken)) =
      GateResult.reject 401 "Invalid or expired token" ∧
    gateStatus (middleware (verifyTokenStr SERVER_SECRET 200) "/api/products"
      (some ("Bearer" ++ " " ++ custToken))) ≠ some 403 :=
  ⟨by decide, by decide, by rfl, by decide, by decide, by decide⟩

/-- C1 amended. On a protected-API path that the asset check does not divert
(no '.', hence not '/_next/' or public either): a missing Authorization
header is rejected 401 'Authentication required', and a two-word header whose
token verifies to a non-admin payload is rejected 401 'Invalid or expired
token' — the same 401 status class as the unauthenticated case, not a
distinct 403. -/
theorem c1_role_not_admin_amended (vf : String → Except String JwtPayload) (p : String)
    (hp : isProtectedApi p = true) (hd : jsIncludesChar p '.' = false) :
    middleware vf p none = GateResult.reject 401 "Authentication required" ∧
    (∀ (w t : String) (c : JwtPayload), spaceChar ∉ w.data → spaceChar ∉ t.data → t ≠ "" →
      vf t = Except.ok c → c.role ≠ "admin" →
      middleware vf p (some (w ++ " " ++ t)) =
        GateResult.reject 401 "Invalid or expired token") := by
  constructor
  · rw [middleware_protected vf none hp hd]
    rfl
  · intro w t c hw ht hne hvf hrole
    rw [middleware_protected vf _ hp hd]
    simp only [apiGate, extractToken_pair w t hw ht]
    rw [if_neg hne, hvf]
    simp [hrole]

set_option maxRecDepth 8192 in
/-- Witness for the amended C1 on /api/products with the concrete customer
token. -/
theorem c1_role_not_admin_amended_wit :
    middleware (verifyTokenStr SERVER_SECRET 200) "/api/products" none =
      GateResult.reject 401 "Authentication required" ∧
    middleware (verifyTokenStr SERVER_SECRET 200) "/api/products"
      (some ("Bearer" ++ " " ++ custToken)) =
      GateResult.reject 401 "Invalid or expired token" := by
  obtain ⟨h1, h2⟩ := c1_role_not_admin_amended (verifyTokenStr SERVER_SECRET 200)
    "/api/products" (by decide) (by decide)
  exact ⟨h1, h2 "Bearer" custToken custPayload (by decide) (by decide) (by decide)
    (by rfl) (by decide)⟩

/-- C5 counterexample. /api/products/v1.2/items begins with a protected-API
prefix, yet the gate passes it through with no token check because the path
contains a dot (in a middle segment, not an asset-extension suffix). -/
theorem c5_dotted_path_cex :
    isProtectedApi "/api/products/v1.2/items" = true ∧
    jsIncludesChar "/api/products/v1.2/items" '.' = true ∧
    middleware vfReject "/api/products/v1.2/items" none = GateResult.next ∧
    GateResult.next ≠ GateResult.reject 401 "Authentication required" :=
  ⟨by decide, by decide, by rfl, by decide⟩

/-- C5 amended. Any path containing a '.' anywhere is passed through with no
checks, even under a protected-API prefix; only a dot-free protected-API path
reaches the token check (here exhibited on the missing-header rejection). -/
theorem c5_asset_check_amended (vf : String → Except String JwtPayload) (p : String)
    (hdr : Option String) :
    (jsIncludesChar p '.' = true → middleware vf p hdr = GateResult.next) ∧
    (isProtectedApi p = true → jsIncludesChar p '.' = false →
      middleware vf p none = GateResult.reject 401 "Authentication required") := by
  constructor
  · intro hdot
    unfold middleware
    rw [hdot]
    simp
  · intro hp hd
    rw [middleware_protected vf none hp hd]
    rfl

/-- Witness for the amended C5: a dotted protected path passes through; a
dot-free protected path without a header is rejected. -/
theorem c5_asset_check_amended_wit :
    middleware vfReject "/api/orders/no.json" none = GateResult.next ∧
    middleware vfReject "/api/orders" none = GateResult.reject 401 "Authentication required" :=
  ⟨(c5_asset_check_amended vfReject "/api/orders/no.json" none).1 (by decide),
   (c5_asset_check_amended vfReject "/api/orders" none).2 (by decide) (by decide)⟩

/-- C10. The gate takes the second space-separated word of the Authorization
header without validating the scheme word: any '(word) (token)' header whose
second word verifies to an admin payload is accepted, and a single-word
header (no space) counts as a missing token, rejected 401
'Authentication required'. -/
theorem c10_scheme_not_validated (vf : String → Except String JwtPayload) (p : String)
    (hp : isProtectedApi p = true) (hd : jsIncludesChar p '.' = false) :
    (∀ (w t : String) (c : JwtPayload), spaceChar ∉ w.data → spaceChar ∉ t.data → t ≠ "" →
      vf t = Except.ok c → c.role = "admin" →
      middleware vf p (some (w ++ " " ++ t)) = GateResult.nextWith c) ∧
    (∀ w : String, spaceChar ∉ w.data →
      middleware vf p (some w) = GateResult.reject 401 "Authentication required") := by
  constructor
  · intro w t c hw ht hne hvf hrole
    rw [middleware_protected vf _ hp hd]
    simp only [apiGate, extractToken_pair w t hw ht]
    rw [if_neg hne, hvf]
    simp [hrole]
  · intro w hw
    rw [middleware_protected vf _ hp hd]
    simp only [apiGate, extractToken_single w hw]

set_option maxRecDepth 8192 in
/-- Witness for C10: a Basic-scheme header with an admin token is accepted on
/api/orders; the same token sent as a single word is rejected 401. -/
theorem c10_scheme_not_validated_wit :
    middleware (verifyTokenStr SERVER_SECRET 60) "/api/orders"
      (some ("Basic" ++ " " ++ adminToken)) = GateResult.nextWith adminPayload ∧
    middleware (verifyTokenStr SERVER_SECRET 60) "/api/orders" (some adminToken) =
      GateResult.reject 401 "Authentication required" := by
  obtain ⟨h1, h2⟩ := c10_scheme_not_validated (verifyTokenStr SERVER_SECRET 60)
    "/api/orders" (by decide) (by decide)
  exact ⟨h1 "Basic" adminToken adminPayload (by decide) (by decide) (by decide) (by rfl) rfl,
    h2 adminToken (by decide)⟩

/-- C6. For every password, verifying it against the stored hash produced by
hashing it succeeds, for any salt the generator can produce (nonempty,
colon-free — randomBytes(16).toString('hex') always is). -/
theorem c6_hash_verify_roundtrip (saltHex password : String) (h1 : saltHex ≠ "")
    (h2 : ':' ∉ saltHex.data) :
    pbkdf2Verify (pbkdf2Hash saltHex password) password = true := by
  have hsplit : jsSplit (pbkdf2Hash saltHex password) ':' =
      [saltHex, bytesToHex (pbkdf2 password saltHex ITERATIONS KEY_LENGTH)] := by
    have he : pbkdf2Hash saltHex password =
        saltHex ++ String.mk [':'] ++
          bytesToHex (pbkdf2 password saltHex ITERATIONS KEY_LENGTH) := by
      simp [pbkdf2Hash]
    rw [he]
    exact jsSplit_sep_pair ':' _ _ h2 (colon_not_mem_bytesToHex _)
  unfold pbkdf2Verify
  rw [hsplit]
  simp only [List.getElem?_cons_zero, List.getElem?_cons_succ, Option.getD_some]
  have hk : bytesToHex (pbkdf2 password saltHex ITERATIONS KEY_LENGTH) ≠ "" :=
    bytesToHex_ne_empty (pbkdf2_ne_nil password saltHex)
  rw [if_neg (by simp [h1, hk])]
  rw [show (bytesToHex (pbkdf2 password saltHex ITERATIONS KEY_LENGTH)).data =
      ((pbkdf2 password saltHex ITERATIONS KEY_LENGTH).map byteToHex).flatten from rfl]
  rw [hexDecode_roundtrip _ (pbkdf2_lt256 password saltHex ITERATIONS KEY_LENGTH)]
  unfold timingSafeEqual
  rw [if_pos rfl]
  simp

/-- Witness for C6 at a concrete 32-hex-character salt and password. -/
theorem c6_hash_verify_roundtrip_wit :
    pbkdf2Verify (pbkdf2Hash "00112233445566778899aabbccddeeff" "password123")
      "password123" = true :=
  c6_hash_verify_roundtrip "00112233445566778899aabbccddeeff" "password123"
    (by decide) (by decide)

set_option maxRecDepth 16384 in
/-- C7 counterexample. A stored hash whose salt segment is the non-hex string
zz (the source never hex-decodes the salt, it feeds the raw string to the
key derivation) verifies true for the matching password instead of returning
false. -/
theorem c7_malformed_hash_cex :
    (jsSplit ("zz:" ++ bytesToHex (pbkdf2 "password123" "zz" ITERATIONS KEY_LENGTH)) ':')[0]? =
      some "zz" ∧
    hexDigitVal? 'z' = none ∧
    pbkdf2Verify ("zz:" ++ bytesToHex (pbkdf2 "password123" "zz" ITERATIONS KEY_LENGTH))
      "password123" = true :=
  ⟨by decide, by rfl, by decide⟩

/-- C7 amended. pbkdf2Verify returns false (and, being total with codomain
Bool — the timingSafeEqual throw is caught — never throws) whenever the
stored hash has a missing or empty salt half, a missing or empty key half
(in particular when there is no ':' separator), or a key segment whose hex
decoding has a byte length other than the 64-byte derived key; non-hex
content in the salt segment does not by itself force a false result. -/
theorem c7_malformed_hash_amended (stored password : String)
    (h : (jsSplit stored ':')[0]?.getD "" = "" ∨
         (jsSplit stored ':')[1]?.getD "" = "" ∨
         (hexDecode (((jsSplit stored ':')[1]?.getD "").data)).length ≠ KEY_LENGTH) :
    pbkdf2Verify stored password = false := by
  by_cases h1 : (jsSplit stored ':')[0]?.getD "" = ""
  · simp [pbkdf2Verify, h1]
  · by_cases h2 : (jsSplit stored ':')[1]?.getD "" = ""
    · simp [pbkdf2Verify, h2]
    · have h3 : (hexDecode (((jsSplit stored ':')[1]?.getD "").data)).length ≠ KEY_LENGTH := by
        rcases h with h | h | h
        · exact absurd h h1
        · exact absurd h h2
        · exact h
      have hlen : (hexDecode (bytesToHex (pbkdf2 password ((jsSplit stored ':')[0]?.getD "")
          ITERATIONS KEY_LENGTH)).data).length = KEY_LENGTH := by
        rw [show (bytesToHex (pbkdf2 password ((jsSplit stored ':')[0]?.getD "")
            ITERATIONS KEY_LENGTH)).data =
            ((pbkdf2 password ((jsSplit stored ':')[0]?.getD "")
              ITERATIONS KEY_LENGTH).map byteToHex).flatten from rfl]
        rw [hexDecode_roundtrip _ (pbkdf2_lt256 password _ ITERATIONS KEY_LENGTH)]
        exact pbkdf2_length password _ ITERATIONS KEY_LENGTH
      have hts : timingSafeEqual
          (hexDecode (bytesToHex (pbkdf2 password ((jsSplit stored ':')[0]?.getD "")
            ITERATIONS KEY_LENGTH)).data)
          (hexDecode (((jsSplit stored ':')[1]?.getD "").data)) =
          Except.error "length mismatch" := by
        unfold timingSafeEqual
        rw [if_neg (by rw [hlen]; exact fun e => h3 e.symm)]
      simp only [pbkdf2Verify]
      rw [if_neg (by simp [h1, h2]), hts]

/-- Witness for the amended C7 at a stored hash with no ':' separator. -/
theorem c7_malformed_hash_amended_wit :
    pbkdf2Verify "deadbeef" "password123" = false :=
  c7_malformed_hash_amended "deadbeef" "password123" (by right; left; decide)

/-- C8 counterexample. Two consecutive setToken(null) calls on route
/dashboard from the Unauthenticated state (the in-memory token is already
absent after the first call): the second call still performs a removeItem
persistence write and still pushes /login — effects are repeated, not
suppressed. -/
theorem c8_setToken_cex :
    (runCalls "/dashboard" [none, none]).map (fun r => r.newTokenState) = [none, none] ∧
    (runCalls "/dashboard" [none, none]).map (fun r => r.storageOps) =
      [[StorageOp.removeItem "adminToken"], [StorageOp.removeItem "adminToken"]] ∧
    (runCalls "/dashboard" [none, none]).map (fun r => r.pushes) = [["/login"], ["/login"]] :=
  ⟨rfl, rfl, rfl⟩

/-- C8 amended. setToken is idempotent on the resulting state (the in-memory
token just becomes the argument), but not on effects: every call performs
exactly one persistence operation, and a setToken(absent) call away from the
login route always pushes /login, whether or not the state already held no
token. -/
theorem c8_setToken_amended (pathname : String) (t : Option String) :
    (setToken pathname t).newTokenState = t ∧
    (setToken pathname t).storageOps ≠ [] ∧
    (t = none → pathname ≠ "/login" → (setToken pathname t).pushes = ["/login"]) := by
  refine ⟨?_, ?_, ?_⟩
  · cases t <;> rfl
  · cases t <;> simp [setToken]
  · rintro rfl hp
    simp [setToken, hp]

/-- Witness for the amended C8 at a logout call on /dashboard. -/
theorem c8_setToken_amended_wit :
    (setToken "/dashboard" none).newTokenState = none ∧
    (setToken "/dashboard" none).storageOps ≠ [] ∧
    (setToken "/dashboard" none).pushes = ["/login"] := by
  obtain ⟨h1, h2, h3⟩ := c8_setToken_amended "/dashboard" none
  exact ⟨h1, h2, h3 rfl (by decide)⟩

/-- C9. In every reachable controller state still in the Uninitialized phase,
the navigation policy decides nothing, a route change emits no redirect, and
no setToken call can fire; redirects can only follow the one-time startup
read. -/
theorem c9_no_redirect_while_uninit (s : CtrlState) (hr : Reach s)
    (hph : s.phase = Phase.uninit) (p : String) (t : Option String) :
    navDecision s = none ∧
    ctrlStep s (CtrlEv.route p) = some ({ s with pathname := p }, []) ∧
    ctrlStep s (CtrlEv.set t) = none := by
  obtain ⟨ph, tok, path⟩ := s
  cases hph
  exact ⟨rfl, rfl, rfl⟩

/-- Witness for C9 at the initial mount state on /orders. -/
theorem c9_no_redirect_while_uninit_wit :
    navDecision ⟨Phase.uninit, none, "/orders"⟩ = none ∧
    ctrlStep ⟨Phase.uninit, none, "/orders"⟩ (CtrlEv.route "/products") =
      some (⟨Phase.uninit, none, "/products"⟩, []) ∧
    ctrlStep ⟨Phase.uninit, none, "/orders"⟩ (CtrlEv.set (some "tok")) = none :=
  c9_no_redirect_while_uninit ⟨Phase.uninit, none, "/orders"⟩ (Reach.start "/orders") rfl
    "/products" (some "tok")
